import Mathlib

/-!
Verification of the naarad-node alert-processing pipeline.

This file gives a shallow embedding, in Lean 4, of the parts of the
naarad-node repository that the verified properties are about:

* the content-curation pipeline of `src/services/articleFormatter.js`
  (fallback rewrite, pre-formatting relevance rating, gatekeeping);
* the intent normalization of `src/services/llmIntentParser.js`
  (`_normalizeIntent`, second revision of the file);
* the search-sentence construction of the Perplexity fetcher
  (`_buildSearchQuery`);
* the scheduler `CronService.processAllAlerts` (re-entrancy guard and
  run-state maintenance);
* the WATI notifier `sendNewsNotification` together with the
  `WatiDispatch` store (duplicate checks and dispatch records).

External collaborators (the Gemini text-generation service, the
Perplexity retrieval service, the image search, the WhatsApp provider
and the document store's failure behaviour) are modelled as oracle
inputs: each call site takes the collaborator's already-classified
outcome as an explicit argument, and every theorem quantifies over all
such outcomes.  JavaScript strings are modelled by `String` (reasoning
happens on their underlying `List Char`); JavaScript numbers that the
code compares with `>=` are modelled by `ℚ`.  A cryptographic digest is
modelled by the exact fingerprint string it digests, which is adequate
because no verified property depends on hash collisions.
-/

/-! ## JavaScript string primitives -/

/-- Whitespace characters removed by `String.prototype.trim` (ASCII subset;
the source never feeds exotic Unicode whitespace to `trim`). -/
def isWsChar (c : Char) : Bool :=
  c = ' ' || c = '\t' || c = '\n' || c = '\r'

/-- `trim` on a character list: drop whitespace from both ends. -/
def trimL (l : List Char) : List Char :=
  ((l.dropWhile isWsChar).reverse.dropWhile isWsChar).reverse

/-- JavaScript `s.trim()`. -/
def jsTrim (s : String) : String :=
  ⟨trimL s.data⟩

/-- Does `pat` occur at the head of `hay`? -/
def startsWithL : List Char → List Char → Bool
  | _, [] => true
  | [], _ :: _ => false
  | c :: t, p :: ps => c = p && startsWithL t ps

/-- Does `pat` occur anywhere in `hay`? -/
def containsSub (hay pat : List Char) : Bool :=
  match hay with
  | [] => pat.isEmpty
  | _ :: t => startsWithL hay pat || containsSub t pat

/-- JavaScript `s.includes(pat)`. -/
def jsIncludes (s pat : String) : Bool :=
  containsSub s.data pat.data

/-- JavaScript `s.toLowerCase()` (character-wise). -/
def jsToLower (s : String) : String :=
  ⟨s.data.map Char.toLower⟩

/-- Sentence separators of the `_fallback` regex `/[.!?]+/`. -/
def isSentSep (c : Char) : Bool :=
  c = '.' || c = '!' || c = '?'

/-- Split a character list at every separator character (one piece per
separator occurrence; empty pieces are produced for adjacent separators,
matching `String.prototype.split` up to the empty pieces, which the
caller filters away). -/
def splitChars (p : Char → Bool) : List Char → List (List Char)
  | [] => [[]]
  | c :: rest =>
    match splitChars p rest with
    | [] => [[]]
    | cur :: acc => if p c then [] :: cur :: acc else (c :: cur) :: acc

/-! ## `ArticleFormatter._fallback` (src/services/articleFormatter.js:51-80) -/

/-- A `{title, description}` pair as produced by the rewrite stage. -/
structure TD where
  title : String
  description : String
deriving Repr, DecidableEq

/-- `articleText.split(/[.!?]+/).map(s => s.trim()).filter(s => s.length > 0)`. -/
def sentencesOf (l : List Char) : List (List Char) :=
  ((splitChars isSentSep l).map trimL).filter (fun s => !s.isEmpty)

/-- `sentences[0] ? sentences[0].substring(0, 80).trim() : "News Update"`. -/
def fallbackTitle : List (List Char) → List Char
  | [] => "News Update".data
  | s0 :: _ => trimL (s0.take 80)

/-- `sentences.slice(0, 3).join(" ").substring(0, 200).trim()`. -/
def fallbackDescription (sentences : List (List Char)) : List Char :=
  trimL ((List.intercalate [' '] (sentences.take 3)).take 200)

/-- `_fallback(articleText)`: deterministic rewrite used when Gemini fails.
Title = first sentence cut to 80 characters; description = first three
sentences joined and cut to 200 characters, with fixed defaults when the
text yields no sentences. -/
def fallbackFormat (articleText : String) : TD :=
  if articleText = "" then
    { title := "News Update", description := "Latest news update available." }
  else
    let sentences := sentencesOf articleText.data
    { title := ⟨fallbackTitle sentences⟩
      description :=
        if (fallbackDescription sentences).isEmpty then
          "Latest news update available."
        else ⟨fallbackDescription sentences⟩ }

/-! ### Non-emptiness of the fallback output -/

theorem mem_dropWhile_of_not {p : Char → Bool} {c : Char} :
    ∀ {l : List Char}, c ∈ l → p c = false → c ∈ l.dropWhile p := by
  intro l
  induction l with
  | nil => intro h _; cases h
  | cons a t ih =>
    intro hmem hpc
    by_cases hpa : p a = true
    · rw [List.dropWhile_cons_of_pos hpa]
      rcases List.mem_cons.mp hmem with rfl | ht
      · rw [hpa] at hpc; cases hpc
      · exact ih ht hpc
    · rw [List.dropWhile_cons_of_neg hpa]
      exact hmem

theorem dropWhile_ne_nil_of_mem {p : Char → Bool} {c : Char} {l : List Char}
    (hmem : c ∈ l) (hpc : p c = false) : l.dropWhile p ≠ [] := by
  intro hnil
  have := mem_dropWhile_of_not hmem hpc
  rw [hnil] at this
  cases this

/-- If the list holds a non-whitespace character, trimming leaves it
non-empty. -/
theorem trimL_ne_nil {l : List Char} {c : Char}
    (hmem : c ∈ l) (hws : isWsChar c = false) : trimL l ≠ [] := by
  unfold trimL
  intro hnil
  rw [List.reverse_eq_nil_iff] at hnil
  have h1 : c ∈ l.dropWhile isWsChar := mem_dropWhile_of_not hmem hws
  have h2 : c ∈ (l.dropWhile isWsChar).reverse := List.mem_reverse.mpr h1
  exact dropWhile_ne_nil_of_mem h2 hws hnil

theorem dropWhile_head_not {p : Char → Bool} :
    ∀ {l : List Char} {c : Char} {t : List Char},
      l.dropWhile p = c :: t → p c = false := by
  intro l
  induction l with
  | nil => intro c t h; cases h
  | cons a l' ih =>
    intro c t h
    by_cases hpa : p a = true
    · rw [List.dropWhile_cons_of_pos hpa] at h
      exact ih h
    · rw [List.dropWhile_cons_of_neg hpa] at h
      cases h
      exact Bool.eq_false_iff.mpr hpa

theorem dropWhile_concat_getLast {p : Char → Bool} {c : Char}
    (hpc : p c = false) :
    ∀ (l : List Char), (l ++ [c]).dropWhile p ≠ [] ∧
      ((l ++ [c]).dropWhile p).getLast? = some c := by
  intro l
  induction l with
  | nil =>
    constructor
    · simp [List.dropWhile_cons_of_neg (Bool.eq_false_iff.mp hpc)]
    · simp [List.dropWhile_cons_of_neg (Bool.eq_false_iff.mp hpc)]
  | cons a l' ih =>
    by_cases hpa : p a = true
    · simpa [List.dropWhile_cons_of_pos hpa] using ih
    · constructor
      · simp [List.dropWhile_cons_of_neg hpa]
      · rw [List.cons_append, List.dropWhile_cons_of_neg hpa]
        rw [← List.cons_append, List.getLast?_concat]

/-- The head of a non-empty trimmed list is not whitespace. -/
theorem trimL_head_not_ws {l : List Char} {c : Char} {t : List Char}
    (h : trimL l = c :: t) : isWsChar c = false := by
  unfold trimL at h
  rcases hm : l.dropWhile isWsChar with _ | ⟨a, t'⟩
  · rw [hm] at h; cases h
  · have ha : isWsChar a = false := dropWhile_head_not hm
    rw [hm] at h
    have hrev : (a :: t').reverse = t'.reverse ++ [a] := by
      simp
    rw [hrev] at h
    have hlast := (dropWhile_concat_getLast ha t'.reverse).2
    have hhead : ((t'.reverse ++ [a]).dropWhile isWsChar).reverse.head? = some a := by
      rw [List.head?_reverse]
      exact hlast
    rw [h] at hhead
    simp at hhead
    rw [hhead]
    exact ha

theorem trimL_take_ne_nil {s0 : List Char} (h0 : s0 ≠ [])
    (hhead : ∀ c t, s0 = c :: t → isWsChar c = false) :
    trimL (s0.take 80) ≠ [] := by
  rcases s0 with _ | ⟨c, t⟩
  · exact absurd rfl h0
  · have hc : isWsChar c = false := hhead c t rfl
    have hmem : c ∈ (c :: t).take 80 := by
      rw [List.take_succ_cons]
      exact List.mem_cons_self c _
    exact trimL_ne_nil hmem hc

theorem strMk_ne_empty {l : List Char} (h : l ≠ []) : (⟨l⟩ : String) ≠ "" := by
  intro hc
  apply h
  have := congrArg String.data hc
  simpa using this

theorem fallbackTitle_sentencesOf_ne_nil (l : List Char) :
    fallbackTitle (sentencesOf l) ≠ [] := by
  rcases hs : sentencesOf l with _ | ⟨s0, rest⟩
  · rw [fallbackTitle]; decide
  · rw [fallbackTitle]
    have hmem : s0 ∈ sentencesOf l := by rw [hs]; exact List.mem_cons_self _ _
    have hfilter := List.mem_filter.mp hmem
    have hne : s0 ≠ [] := by
      intro hnil
      rw [hnil] at hfilter
      simp at hfilter
    obtain ⟨x, _, hx⟩ := List.mem_map.mp hfilter.1
    have hhead : ∀ c t, s0 = c :: t → isWsChar c = false := by
      intro c t hct
      exact trimL_head_not_ws (hx.trans hct)
    exact trimL_take_ne_nil hne hhead

/-- The fallback formatter always produces a non-empty title and a
non-empty description. -/
theorem fallbackFormat_nonempty (articleText : String) :
    (fallbackFormat articleText).title ≠ "" ∧
      (fallbackFormat articleText).description ≠ "" := by
  unfold fallbackFormat
  by_cases hempty : articleText = ""
  · simp [hempty]
  · rw [if_neg hempty]
    constructor
    · exact strMk_ne_empty (fallbackTitle_sentencesOf_ne_nil articleText.data)
    · simp only
      split
      · decide
      · rename_i hdesc
        apply strMk_ne_empty
        intro hnil
        exact hdesc (by rw [hnil]; rfl)

/-! ## `ArticleFormatter._generateWithGemini` (src/services/articleFormatter.js:145-234)

The Gemini call and the subsequent response classification (JSON parse,
then the `TITLE:`/`DESCRIPTION:` regex fallback) are modelled by an
oracle value describing the already-classified outcome of the call. -/

/-- Outcome of a rewrite request to the text-generation collaborator.

* `genError`  — the request threw (network error, safety block raised).
* `blocked`   — `promptFeedback.blockReason` was set.
* `emptyText` — the returned text was empty or whitespace.
* `jsonOk t d` — the cleaned text parsed as JSON with truthy string
  fields `title`/`description` (the two captured values).
* `jsonPartial` — the cleaned text parsed as JSON but `title` or
  `description` was missing or falsy, so both stay empty.
* `notJson tm dm` — JSON parsing failed (or a field was not a string and
  `.trim()` threw); `tm`/`dm` are the captures of the
  `TITLE:`/`DESCRIPTION:` regexes, when they matched. -/
inductive RewriteOutcome
  | genError
  | blocked
  | emptyText
  | jsonOk (title description : String)
  | jsonPartial
  | notJson (titleMatch descMatch : Option String)
deriving Repr, DecidableEq

/-- `_generateWithGemini(articleText, …)` restricted to its parsed result:
returns the accepted `{title, description}` or the deterministic fallback. -/
def generateWithGemini (articleText : String) : RewriteOutcome → TD
  | .genError => fallbackFormat articleText
  | .blocked => fallbackFormat articleText
  | .emptyText => fallbackFormat articleText
  | .jsonOk t d =>
    if jsTrim t = "" ∨ jsTrim d = "" then fallbackFormat articleText
    else { title := jsTrim t, description := jsTrim d }
  | .jsonPartial => fallbackFormat articleText
  | .notJson tm dm =>
    if (tm.map jsTrim).getD "" = "" ∨ (dm.map jsTrim).getD "" = "" then
      fallbackFormat articleText
    else { title := (tm.map jsTrim).getD "", description := (dm.map jsTrim).getD "" }

/-- The rewrite stage never emits an empty title or description, for any
collaborator outcome. -/
theorem generateWithGemini_nonempty (articleText : String) (o : RewriteOutcome) :
    (generateWithGemini articleText o).title ≠ "" ∧
      (generateWithGemini articleText o).description ≠ "" := by
  cases o with
  | genError => exact fallbackFormat_nonempty articleText
  | blocked => exact fallbackFormat_nonempty articleText
  | emptyText => exact fallbackFormat_nonempty articleText
  | jsonPartial => exact fallbackFormat_nonempty articleText
  | jsonOk t d =>
    simp only [generateWithGemini]
    split
    · exact fallbackFormat_nonempty articleText
    · rename_i hcond
      push_neg at hcond
      exact hcond
  | notJson tm dm =>
    simp only [generateWithGemini]
    split
    · exact fallbackFormat_nonempty articleText
    · rename_i hcond
      push_neg at hcond
      exact hcond

/-! ## `ArticleFormatter._rateArticleBeforeFormatting`
(src/services/articleFormatter.js:327-390; the variant embedded in
src/routes/cronRoutes.js:703-776 is identical except that the threshold
is the constructor parameter `minRatingThreshold` instead of the literal
9, so the function is modelled with the threshold as a parameter). -/

/-- The relevance threshold hard-coded in
src/services/articleFormatter.js (`rating >= 9`). -/
def minRatingThreshold : ℚ := 9

/-- Intent context handed to the rating prompt.  Only its presence
affects control flow; its fields feed the prompt text. -/
structure AlertIntentCtx where
  category : Option String := none
  subcategory : List String := []
  custom_question : Option String := none
  intent_summary : Option String := none
deriving Repr, DecidableEq

/-- Outcome of a rating request.

* `genError`  — the request threw.
* `emptyText` — the returned text was empty or whitespace.
* `parseFail` — the cleaned text was not valid JSON.
* `json r _`  — valid JSON; `r` is `some` the numeric `rating` field when
  `typeof parsed.rating === "number"`, else `none`. -/
inductive RatingOutcome
  | genError
  | emptyText
  | parseFail
  | json (rating : Option ℚ) (reason : Option String)
deriving Repr, DecidableEq

/-- Result record `{ rating, reason, shouldProceed }`. -/
structure RatingResult where
  rating : ℚ
  reason : String
  shouldProceed : Bool
deriving Repr, DecidableEq

/-- `_rateArticleBeforeFormatting(articleText, alertIntent)` with the
collaborator's outcome as an oracle and the threshold as a parameter
(9 in the services formatter, configurable in the cronRoutes variant). -/
def rateArticleBeforeFormatting (threshold : ℚ) (articleText : String)
    (alertIntent : Option AlertIntentCtx) (o : RatingOutcome) : RatingResult :=
  if jsTrim articleText = "" then
    { rating := 0, reason := "Empty article text", shouldProceed := false }
  else
    match alertIntent with
    | none =>
      { rating := 10, reason := "No intent to compare against", shouldProceed := true }
    | some _ =>
      match o with
      | .genError =>
        { rating := 10, reason := "Rating service error", shouldProceed := true }
      | .emptyText =>
        { rating := 10, reason := "Rating service unavailable", shouldProceed := true }
      | .parseFail =>
        { rating := 10, reason := "Rating parse error", shouldProceed := true }
      | .json r reason =>
        let rating := r.getD 0
        { rating := rating
          reason := (reason.filter (· ≠ "")).getD "No reason provided"
          shouldProceed := decide (threshold ≤ rating) }

/-! ## `ArticleFormatter.formatArticles`, stage 1
(src/services/articleFormatter.js:543-616) -/

/-- One raw input item of `formatArticles`: either a plain string or an
object `{article, article_hash}` as produced by the Perplexity fetcher. -/
inductive RawArticle
  | str (s : String)
  | obj (article : String) (article_hash : Option String)
deriving Repr, DecidableEq

/-- Escape `"` and `\` as `JSON.stringify` does (control-character
escapes omitted; no verified property exercises them). -/
def jsonEscape (s : String) : String :=
  s.foldl
    (fun acc c =>
      if c = '"' then acc ++ "\\\""
      else if c = '\\' then acc ++ "\\\\" else acc.push c)
    ""

/-- `JSON.stringify` of a fetcher item `{article, article_hash}`; reached
only when the `article` field is falsy. -/
def jsonStringifyItem (article : String) (article_hash : Option String) : String :=
  "\x7b\"article\":\"" ++ jsonEscape article ++ "\"" ++
    (match article_hash with
     | some h => ",\"article_hash\":\"" ++ jsonEscape h ++ "\""
     | none => ",\"article_hash\":null") ++ "\x7d"

/-- `typeof article === "string" ? article : article.article || JSON.stringify(article)`. -/
def extractText : RawArticle → String
  | .str s => s
  | .obj article h => if article ≠ "" then article else jsonStringifyItem article h

/-- `typeof article === "object" && article.article_hash ? article.article_hash : null`. -/
def extractHash : RawArticle → Option String
  | .str _ => none
  | .obj _ h => if h.getD "" ≠ "" then h else none

/-- Image-search result attached to a formatted article (best effort). -/
structure ImageResult where
  url : String
  thumbnail : String
  search_query : String
  source : String
deriving Repr, DecidableEq

/-- A formatted article as pushed by stage 1 / returned by gatekeeping. -/
structure FormattedArticle where
  title : String
  description : String
  article_hash : Option String := none
  original_content : Option String := none
  image_url : Option String := none
  image_thumbnail : Option String := none
  image_search_query : Option String := none
  image_source : Option String := none
  gatekeeper_reason : Option String := none
deriving Repr, DecidableEq

/-- The collaborator outcomes consumed while processing a single raw
article in stage 1 of `formatArticles`. -/
structure ItemOracle where
  rating : RatingOutcome
  rewrite : RewriteOutcome
  /-- `none` models: no image service configured, image lookup failed, or
  no result; `some r` a successful lookup. -/
  image : Option ImageResult
deriving Repr, DecidableEq

/-- A follow-up entry: either the schema's object shape
`{question, selected_answer, options[]}` or a plain string (both occur
in the source's defensive handling). -/
inductive FollowupQ
  | obj (question : Option String) (options : Option (List String))
      (selected_answer : Option String)
  | str (s : String)
deriving Repr, DecidableEq

/-- The intent object passed to `formatArticles`; the rating gate fires
only when the `alertIntent` field is present. -/
structure UserIntent where
  topic : Option String := none
  category : Option String := none
  intent_summary : Option String := none
  subcategory : List String := []
  followup_questions : List FollowupQ := []
  timeframe : Option String := none
  alertIntent : Option AlertIntentCtx := none
  alert_id : Option String := none
  user_id : Option String := none
deriving Repr, DecidableEq

/-- The body of the stage-1 `for` loop of `formatArticles` for one raw
article: extract text and hash, skip empty text, apply the rating gate
when `userIntent.alertIntent` is present, rewrite, and attach hash,
original content and image.  Returns `none` when the loop `continue`s
without pushing. -/
def processOneArticle (userIntent : Option UserIntent) (o : ItemOracle)
    (a : RawArticle) : Option FormattedArticle :=
  let articleText := extractText a
  let articleHash := extractHash a
  if jsTrim articleText = "" then none
  else
    let gate := userIntent.bind (·.alertIntent)
    let rated :=
      match gate with
      | some ai =>
        (rateArticleBeforeFormatting minRatingThreshold articleText (some ai)
          o.rating).shouldProceed
      | none => true
    if rated then
      let formatted := generateWithGemini articleText o.rewrite
      if formatted.title ≠ "" ∧ formatted.description ≠ "" then
        some
          { title := formatted.title
            description := formatted.description
            article_hash := articleHash
            original_content := some articleText
            image_url := o.image.map (·.url)
            image_thumbnail := o.image.map (·.thumbnail)
            image_search_query := o.image.map (·.search_query)
            image_source := o.image.map (·.source)
            gatekeeper_reason := none }
      else none
    else none

/-- Stage 1 of `formatArticles` over a list of raw articles paired with
the collaborator outcomes their processing consumes (the caller has
already applied `slice(0, maxArticles)`). -/
def formatStage1 (userIntent : Option UserIntent) :
    List (RawArticle × ItemOracle) → List FormattedArticle
  | [] => []
  | (a, o) :: rest =>
    match processOneArticle userIntent o a with
    | some fa => fa :: formatStage1 userIntent rest
    | none => formatStage1 userIntent rest

/-! ## `ArticleFormatter._gatekeepArticles`
(src/services/articleFormatter.js:430-485) -/

/-- Outcome of the gatekeeping request.

* `genError`  — the request threw.
* `emptyText` — the returned text was empty or whitespace.
* `parseFail` — the cleaned text was not valid JSON.
* `jsonArr l` — valid JSON array of items.
* `jsonObj t d` — valid JSON single object with its truthy-or-not
  `title`/`description` fields. -/
inductive GatekeepOutcome
  | genError
  | emptyText
  | parseFail
  | jsonArr (items : List FormattedArticle)
  | jsonObj (item : FormattedArticle)
deriving Repr, DecidableEq

/-- `{ ...article, gatekeeper_reason: "Article passed gatekeeping" }`. -/
def addDefaultReason (a : FormattedArticle) : FormattedArticle :=
  { a with gatekeeper_reason := some "Article passed gatekeeping" }

/-- `_gatekeepArticles(formattedArticles, userIntent)` with the
collaborator's outcome as an oracle. -/
def gatekeepArticles (formattedArticles : List FormattedArticle)
    (o : GatekeepOutcome) : List FormattedArticle :=
  if formattedArticles.isEmpty then []
  else
    match o with
    | .genError => formattedArticles.map addDefaultReason
    | .emptyText => formattedArticles.map addDefaultReason
    | .parseFail => formattedArticles.map addDefaultReason
    | .jsonArr items => items
    | .jsonObj item =>
      if item.title ≠ "" ∧ item.description ≠ "" then [item] else []

/-! ### Shared facts about stage 1 -/

/-- When the rewrite response is unparsable (JSON without the required
fields, or no JSON and no labelled text), the rewrite stage returns the
deterministic fallback. -/
theorem generateWithGemini_unparsable (articleText : String) {o : RewriteOutcome}
    (h : o = .notJson none none ∨ o = .jsonPartial) :
    generateWithGemini articleText o = fallbackFormat articleText := by
  rcases h with rfl | rfl
  · simp [generateWithGemini]
  · rfl

/-- Without an `alertIntent` gate, an item survives stage 1 exactly when
its extracted text is non-empty after trimming, for every collaborator
outcome. -/
theorem processOneArticle_noGate_isSome (u : Option UserIntent) (o : ItemOracle)
    (a : RawArticle) (hgate : u.bind (·.alertIntent) = none) :
    (processOneArticle u o a).isSome = (jsTrim (extractText a) != "") := by
  unfold processOneArticle
  by_cases htext : jsTrim (extractText a) = ""
  · simp [htext]
  · rw [if_neg htext]
    rw [hgate]
    obtain ⟨h1, h2⟩ := generateWithGemini_nonempty (extractText a) o.rewrite
    simp [h1, h2, htext]

/-! ## The scheduler's per-alert intent object
(src/services/llmIntentParser.js:857-866, `CronService.processAlert`) -/

/-- A cached `AlertIntent` document as read back from the store
(models/AlertIntent schema, src/unnamed/part_000). -/
structure AlertIntentRec where
  alert_id : String
  user_id : String
  topic : String
  category : String
  subcategory : Option (List String) := none
  custom_question : Option String := none
  followup_questions : Option (List FollowupQ) := none
  intent_summary : String
  timeframe : String
  perplexity_query : String
  requires_live_data : Option Bool := none
deriving Repr, DecidableEq

/-- The `userIntentForFormatting` object literal built by
`CronService.processAlert` before calling `formatArticles`: it carries
topic/category/intent summary/subcategory/follow-ups/timeframe and *no*
`alertIntent` field. -/
def userIntentForFormatting (ai : AlertIntentRec) : UserIntent :=
  { topic := some ai.topic
    category := some ai.category
    intent_summary := some ai.intent_summary
    subcategory := ai.subcategory.getD []
    followup_questions := ai.followup_questions.getD []
    timeframe := some ai.timeframe }

/-! ## Claims C3, C5, C6, C9 -/

/-- C3: for every article whose rating response parses to a number `r`,
the item proceeds to rewriting exactly when `r >= minRatingThreshold`;
in particular `minRatingThreshold - 1` is excluded and
`minRatingThreshold` itself is included (inclusive boundary). -/
theorem C3_rating_boundary_inclusive (u : UserIntent) (ai : AlertIntentCtx)
    (o : ItemOracle) (a : RawArticle) (r : ℚ) (reason : Option String)
    (hgate : u.alertIntent = some ai)
    (hrating : o.rating = .json (some r) reason)
    (htext : jsTrim (extractText a) ≠ "") :
    ((processOneArticle (some u) o a).isSome ↔ minRatingThreshold ≤ r) ∧
      (rateArticleBeforeFormatting minRatingThreshold (extractText a) (some ai)
          o.rating).shouldProceed = decide (minRatingThreshold ≤ r) := by
  have hrate : (rateArticleBeforeFormatting minRatingThreshold (extractText a)
      (some ai) o.rating).shouldProceed = decide (minRatingThreshold ≤ r) := by
    rw [hrating]
    unfold rateArticleBeforeFormatting
    rw [if_neg htext]
    rfl
  refine ⟨?_, hrate⟩
  unfold processOneArticle
  rw [if_neg htext]
  rw [show ((some u).bind fun x => x.alertIntent) = u.alertIntent from rfl, hgate]
  dsimp only
  rw [hrate]
  by_cases hr : minRatingThreshold ≤ r
  · obtain ⟨h1, h2⟩ := generateWithGemini_nonempty (extractText a) o.rewrite
    simp [hr, h1, h2]
  · simp [hr]

/-- Witness for C3 at both boundary rating values 9 and 8 with the
threshold 9 of the services formatter. -/
theorem C3_rating_boundary_inclusive_witness :
    ((processOneArticle
        (some { alertIntent := some {} })
        { rating := .json (some 9) none, rewrite := .jsonOk "T" "D", image := none }
        (.str "Some fresh news. It matters.")).isSome ↔
      minRatingThreshold ≤ (9 : ℚ)) ∧
    ((processOneArticle
        (some { alertIntent := some {} })
        { rating := .json (some 8) none, rewrite := .jsonOk "T" "D", image := none }
        (.str "Some fresh news. It matters.")).isSome ↔
      minRatingThreshold ≤ (8 : ℚ)) :=
  ⟨(C3_rating_boundary_inclusive _ _ _ _ 9 none rfl rfl (by decide)).1,
   (C3_rating_boundary_inclusive _ _ _ _ 8 none rfl rfl (by decide)).1⟩

/-- C5: when the rewrite response is unparsable, the item's curated
output still has a non-empty title and description (the deterministic
fallback: first sentence / first three sentences, truncated), and the
content hash supplied with the input item is attached. -/
theorem C5_rewrite_fallback_guarantee (u : Option UserIntent) (o : ItemOracle)
    (a : RawArticle)
    (hun : o.rewrite = .notJson none none ∨ o.rewrite = .jsonPartial)
    (htext : jsTrim (extractText a) ≠ "")
    (hgate : u.bind (·.alertIntent) = none ∨
      ∃ ai, u.bind (·.alertIntent) = some ai ∧
        (rateArticleBeforeFormatting minRatingThreshold (extractText a) (some ai)
            o.rating).shouldProceed = true) :
    ∃ fa, processOneArticle u o a = some fa ∧
      fa.title = (fallbackFormat (extractText a)).title ∧
      fa.description = (fallbackFormat (extractText a)).description ∧
      fa.title ≠ "" ∧ fa.description ≠ "" ∧
      fa.article_hash = extractHash a := by
  have hfb := generateWithGemini_unparsable (extractText a) hun
  obtain ⟨h1, h2⟩ := fallbackFormat_nonempty (extractText a)
  unfold processOneArticle
  rw [if_neg htext]
  rcases hgate with hg | ⟨ai, hg, hpr⟩
  · rw [hg]
    dsimp only
    rw [hfb, if_pos rfl]
    exact ⟨_, if_pos ⟨h1, h2⟩, rfl, rfl, h1, h2, rfl⟩
  · rw [hg]
    dsimp only
    rw [hpr, hfb, if_pos rfl]
    exact ⟨_, if_pos ⟨h1, h2⟩, rfl, rfl, h1, h2, rfl⟩

/-- Witness for C5: an object item carrying a hash, rating gate absent,
rewrite response with neither JSON nor labelled text. -/
theorem C5_rewrite_fallback_guarantee_witness :
    jsTrim (extractText (.obj "Rain hit the final. Play resumed late. Fans stayed." (some "hash1"))) ≠ "" ∧
    ∃ fa,
      processOneArticle none
          { rating := .parseFail, rewrite := .notJson none none, image := none }
          (.obj "Rain hit the final. Play resumed late. Fans stayed." (some "hash1")) =
        some fa ∧
      fa.title = (fallbackFormat (extractText (.obj "Rain hit the final. Play resumed late. Fans stayed." (some "hash1")))).title ∧
      fa.description = (fallbackFormat (extractText (.obj "Rain hit the final. Play resumed late. Fans stayed." (some "hash1")))).description ∧
      fa.title ≠ "" ∧ fa.description ≠ "" ∧
      fa.article_hash = extractHash (.obj "Rain hit the final. Play resumed late. Fans stayed." (some "hash1")) :=
  ⟨by decide,
   C5_rewrite_fallback_guarantee none _ _ (Or.inl rfl) (by decide) (Or.inl rfl)⟩

/-- C6: for a non-empty curated list, an empty or unparsable gatekeeping
response passes all input items through, each with the default
gatekeeper reason — the stage cannot return zero items on such a
failure. -/
theorem C6_gatekeeper_fail_open (arts : List FormattedArticle)
    (o : GatekeepOutcome) (hne : arts ≠ [])
    (hfail : o = .genError ∨ o = .emptyText ∨ o = .parseFail) :
    gatekeepArticles arts o = arts.map addDefaultReason ∧
      gatekeepArticles arts o ≠ [] ∧
      ∀ fa ∈ gatekeepArticles arts o,
        fa.gatekeeper_reason = some "Article passed gatekeeping" := by
  have hempty : arts.isEmpty = false := by
    cases arts with
    | nil => exact absurd rfl hne
    | cons a t => rfl
  have hmap : gatekeepArticles arts o = arts.map addDefaultReason := by
    unfold gatekeepArticles
    rw [hempty]
    rcases hfail with rfl | rfl | rfl <;> rfl
  refine ⟨hmap, ?_, ?_⟩
  · rw [hmap]
    intro hnil
    exact hne (List.map_eq_nil_iff.mp hnil)
  · intro fa hfa
    rw [hmap] at hfa
    obtain ⟨b, _, hb⟩ := List.mem_map.mp hfa
    rw [← hb]
    rfl

/-- Witness for C6: two curated items, gatekeeping response unparsable. -/
theorem C6_gatekeeper_fail_open_witness :
    gatekeepArticles [{ title := "T1", description := "D1" },
        { title := "T2", description := "D2" }] .parseFail =
      List.map addDefaultReason [{ title := "T1", description := "D1" },
        { title := "T2", description := "D2" }] ∧
    gatekeepArticles [{ title := "T1", description := "D1" },
        { title := "T2", description := "D2" }] .parseFail ≠ [] ∧
    ∀ fa ∈ gatekeepArticles [{ title := "T1", description := "D1" },
        { title := "T2", description := "D2" }] .parseFail,
      fa.gatekeeper_reason = some "Article passed gatekeeping" :=
  C6_gatekeeper_fail_open _ _ (by decide) (Or.inr (Or.inr rfl))

/-- C9: the rating gate runs only when the supplied intent object has an
`alertIntent` field; with `userIntent` absent or lacking `alertIntent` —
in particular the scheduler's `userIntentForFormatting` object — every
raw article with non-empty text survives stage 1 for every rating
outcome, so the rating stage never excludes an article. -/
theorem C9_rating_gate_requires_alertIntent (u : Option UserIntent)
    (hgate : u.bind (·.alertIntent) = none) :
    (∀ ai : AlertIntentRec, (userIntentForFormatting ai).alertIntent = none) ∧
      ∀ items : List (RawArticle × ItemOracle),
        (formatStage1 u items).length =
          (items.filter (fun p => jsTrim (extractText p.1) != "")).length := by
  refine ⟨fun ai => rfl, ?_⟩
  intro items
  induction items with
  | nil => rfl
  | cons p rest ih =>
    obtain ⟨a, o⟩ := p
    have hsome := processOneArticle_noGate_isSome u o a hgate
    rw [formatStage1]
    by_cases htext : jsTrim (extractText a) = ""
    · rw [htext] at hsome
      simp only [bne_self_eq_false] at hsome
      cases hopt : processOneArticle u o a with
      | some fa => rw [hopt] at hsome; cases hsome
      | none =>
        rw [List.filter_cons]
        simp only [htext, bne_self_eq_false, if_false]
        exact ih
    · have hbne : (jsTrim (extractText a) != "") = true := bne_iff_ne.mpr htext
      rw [hbne] at hsome
      cases hopt : processOneArticle u o a with
      | none => rw [hopt] at hsome; cases hsome
      | some fa =>
        rw [List.filter_cons]
        simp only [hbne, if_true]
        rw [List.length_cons, List.length_cons, ih]

/-- Witness for C9: the scheduler's intent object plus one non-empty and
one empty raw article, with a rating outcome that would reject. -/
theorem C9_rating_gate_requires_alertIntent_witness :
    ((some (userIntentForFormatting
        { alert_id := "a1", user_id := "u1", topic := "tech", category := "Technology",
          intent_summary := "AI updates", timeframe := "3days",
          perplexity_query := "latest AI news" })).bind (fun x => x.alertIntent) = none) ∧
    (formatStage1
        (some (userIntentForFormatting
          { alert_id := "a1", user_id := "u1", topic := "tech", category := "Technology",
            intent_summary := "AI updates", timeframe := "3days",
            perplexity_query := "latest AI news" }))
        [(.str "Chips got faster. Prices fell.",
          { rating := .json (some 1) none, rewrite := .jsonOk "T" "D", image := none }),
         (.str "   ",
          { rating := .json (some 10) none, rewrite := .jsonOk "T" "D", image := none })]).length =
      ([(RawArticle.str "Chips got faster. Prices fell.",
          ({ rating := .json (some 1) none, rewrite := .jsonOk "T" "D", image := none } : ItemOracle)),
        (RawArticle.str "   ",
          ({ rating := .json (some 10) none, rewrite := .jsonOk "T" "D", image := none } : ItemOracle))].filter
        (fun p => jsTrim (extractText p.1) != "")).length := by
  refine ⟨rfl, ?_⟩
  exact (C9_rating_gate_requires_alertIntent
    (some (userIntentForFormatting
      { alert_id := "a1", user_id := "u1", topic := "tech", category := "Technology",
        intent_summary := "AI updates", timeframe := "3days",
        perplexity_query := "latest AI news" })) rfl).2 _

/-! ## `LLMIntentParser._normalizeIntent`
(src/services/llmIntentParser.js:689-728, second revision of the file;
helpers `_detectUrgency` at 495-509 and `_buildPerplexityQuery` at
514-550) -/

/-- A JavaScript value that is either a string or an array of strings
(the parsed JSON may return either shape for `subcategory` and
`followup_questions`). -/
inductive StrOrList
  | str (s : String)
  | list (l : List String)
deriving Repr, DecidableEq

/-- `_detectUrgency(text)`: true when any urgency keyword occurs in the
lower-cased text (false for a falsy text). -/
def detectUrgency (text : String) : Bool :=
  if text = "" then false
  else
    ["only", "win", "won", "result", "score", "breaking", "live", "today",
      "now"].any (fun k => jsIncludes (jsToLower text) k)

/-- The `alertData` argument of `parseIntent`/`_normalizeIntent` (the
raw alert preference fields). -/
structure AlertData where
  topic : Option String := none
  category : Option String := none
  subcategories : List String := []
  followup_questions : List FollowupQ := []
  custom_question : Option String := none
  timeframe : Option String := none
  intent_summary : Option String := none
deriving Repr, DecidableEq

/-- `a || b || c` over optional strings with JavaScript truthiness
(an absent or empty string falls through). -/
def firstTruthy (xs : List (Option String)) (dflt : String) : String :=
  match xs with
  | [] => dflt
  | x :: rest =>
    match x with
    | some s => if s ≠ "" then s else firstTruthy rest dflt
    | none => firstTruthy rest dflt

/-- `_buildPerplexityQuery(alertData)` (second revision): return the
trimmed `intent_summary` if present, else synthesize a sentence from
category/topic, the first two subcategories, the custom question and
the timeframe, capped at 220 characters. -/
def buildPerplexityQuery (d : AlertData) : String :=
  let summaryClean := jsTrim (d.intent_summary.getD "")
  if summaryClean ≠ "" then summaryClean
  else
    let main := firstTruthy [d.category, d.topic] "news"
    let subs :=
      if d.subcategories ≠ [] then
        " about " ++ String.intercalate ", " (d.subcategories.take 2)
      else ""
    let custom :=
      match d.custom_question with
      | some c => if jsTrim c ≠ "" then " and also address: " ++ jsTrim c else ""
      | none => ""
    let tf :=
      if d.timeframe = some "24hours" then "in the last 24 hours"
      else if d.timeframe = some "1week" then "in the last 7 days"
      else if d.timeframe = some "1month" then "in the last 30 days"
      else "in the last 3 days"
    let sentence := "Find latest " ++ main ++ subs ++ custom ++ ", strictly " ++ tf ++ "."
    if sentence.length > 220 then ⟨sentence.data.take 220⟩ else sentence

/-- The intent object being normalized (fields as produced by parsing
Gemini's JSON, before/after `_normalizeIntent`). -/
structure Intent where
  topic : Option String := none
  category : Option String := none
  subcategory : Option StrOrList := none
  custom_question : Option String := none
  followup_questions : Option StrOrList := none
  intent_summary : Option String := none
  timeframe : Option String := none
  perplexity_query : Option String := none
  requires_live_data : Option Bool := none
deriving Repr, DecidableEq

/-- The four-value timeframe enum. -/
def validTimeframes : List String := ["24hours", "3days", "1week", "1month"]

/-- Coerce a scalar string field into a one-element list
(`if (typeof x === "string") x = [x]`). -/
def coerceToList : Option StrOrList → Option StrOrList
  | some (.str s) => some (.list [s])
  | other => other

/-- `intent.custom_question || (intent.followup_questions &&
intent.followup_questions.join(" "))`, collapsed to the string whose
urgency is tested (`_detectUrgency` treats an absent text as empty). -/
def urgencyText (custom : Option String) (fq : Option StrOrList) : String :=
  match custom with
  | some c =>
    if c ≠ "" then c
    else
      match fq with
      | some (.list l) => String.intercalate " " l
      | some (.str s) => s
      | none => ""
  | none =>
    match fq with
    | some (.list l) => String.intercalate " " l
    | some (.str s) => s
    | none => ""

/-- The duck-typed reading of an intent object as `alertData` performed
by `this._buildPerplexityQuery(alertData || intent)`: the intent has no
`subcategories` field (so the destructuring default `[]` applies), and
its other fields are read under the `alertData` names. -/
def intentAsAlertData (i : Intent) : AlertData :=
  { topic := i.topic
    category := i.category
    subcategories := []
    followup_questions := []
    custom_question := i.custom_question
    timeframe := i.timeframe
    intent_summary := i.intent_summary }

/-- `if (intent.requires_live_data == null) intent.requires_live_data =
this._detectUrgency(...)`: keep an explicit boolean, else derive it from
the urgency keywords. -/
def resolveLiveData (custom : Option String) (fq : Option StrOrList) :
    Option Bool → Option Bool
  | some b => some b
  | none => some (detectUrgency (urgencyText custom fq))

/-- `_normalizeIntent(intent, alertData)` (second revision): coerce
scalar fields to lists, clamp the timeframe to the enum (default
`"3days"`), derive `requires_live_data` from urgency keywords when
absent, force the timeframe to `"24hours"` when live data is required,
ensure a non-empty `perplexity_query` capped at 180 characters and drop
any generated `perplexity_prompt` (the latter field is not modelled as
it is deleted unconditionally). -/
def normalizeIntent (intent0 : Intent) (alertData : Option AlertData) : Intent :=
  let i1 := { intent0 with
    subcategory := coerceToList intent0.subcategory
    followup_questions := coerceToList intent0.followup_questions }
  let i2 := { i1 with
    timeframe :=
      if (i1.timeframe.map (validTimeframes.contains ·)).getD false then i1.timeframe
      else some "3days" }
  let i3 := { i2 with
    requires_live_data :=
      resolveLiveData i2.custom_question i2.followup_questions i2.requires_live_data }
  let i4 :=
    if i3.requires_live_data = some true then { i3 with timeframe := some "24hours" }
    else i3
  let query0 :=
    match i4.perplexity_query with
    | some q => if jsTrim q ≠ "" then q else
        buildPerplexityQuery (alertData.getD (intentAsAlertData i4))
    | none => buildPerplexityQuery (alertData.getD (intentAsAlertData i4))
  let query1 := jsTrim query0
  let query2 := if query1.length > 180 then (⟨query1.data.take 180⟩ : String) else query1
  { i4 with perplexity_query := some query2 }


/-- Projections of `normalizeIntent` needed for the timeframe claims:
the resolved live-data flag, and the timeframe it forces. -/
theorem normalizeIntent_key (i : Intent) (d : Option AlertData) :
    (normalizeIntent i d).requires_live_data =
        resolveLiveData i.custom_question (coerceToList i.followup_questions)
          i.requires_live_data ∧
      (normalizeIntent i d).timeframe =
        (if resolveLiveData i.custom_question (coerceToList i.followup_questions)
              i.requires_live_data = some true then some "24hours"
         else if (i.timeframe.map (validTimeframes.contains ·)).getD false then
           i.timeframe
         else some "3days") := by
  unfold normalizeIntent
  dsimp only
  by_cases hc : resolveLiveData i.custom_question (coerceToList i.followup_questions)
      i.requires_live_data = some true
  · rw [if_pos hc, if_pos hc]
    exact ⟨rfl, rfl⟩
  · rw [if_neg hc, if_neg hc]
    exact ⟨rfl, rfl⟩

/-- C4: normalization clamps an out-of-enum timeframe to the default
`"3days"` (when live data is not required), a true `requires_live_data`
forces the timeframe to `"24hours"` regardless of what was otherwise
derived, and the normalized timeframe always lies in the four-value
enum. -/
theorem C4_intent_normalization (i : Intent) (d : Option AlertData) :
    ((normalizeIntent i d).requires_live_data = some true →
      (normalizeIntent i d).timeframe = some "24hours") ∧
    ((normalizeIntent i d).requires_live_data ≠ some true →
      (i.timeframe.map (validTimeframes.contains ·)).getD false = false →
      (normalizeIntent i d).timeframe = some "3days") ∧
    (∃ t, (normalizeIntent i d).timeframe = some t ∧ t ∈ validTimeframes) := by
  obtain ⟨hrld, htf⟩ := normalizeIntent_key i d
  refine ⟨?_, ?_, ?_⟩
  · intro hlive
    rw [hrld] at hlive
    rw [htf, if_pos hlive]
  · intro hlive hinvalid
    rw [hrld] at hlive
    rw [htf, if_neg hlive, hinvalid]
    rfl
  · rw [htf]
    split
    · exact ⟨"24hours", rfl, by decide⟩
    · by_cases hvalid : (i.timeframe.map (validTimeframes.contains ·)).getD false = true
      · rw [if_pos hvalid]
        match ht : i.timeframe with
        | some t =>
          refine ⟨t, rfl, ?_⟩
          rw [ht] at hvalid
          simpa using hvalid
        | none =>
          rw [ht] at hvalid
          simp at hvalid
      · rw [if_neg hvalid]
        exact ⟨"3days", rfl, by decide⟩

/-- Witness for C4: a live-data intent with the timeframe `"bogus"` is
forced to `"24hours"`, and the same intent without live data is clamped
to the default `"3days"`. -/
theorem C4_intent_normalization_witness :
    ((normalizeIntent { timeframe := some "bogus", requires_live_data := some true } none).requires_live_data = some true →
      (normalizeIntent { timeframe := some "bogus", requires_live_data := some true } none).timeframe = some "24hours") ∧
    ((normalizeIntent { timeframe := some "bogus", requires_live_data := some false } none).requires_live_data ≠ some true →
      ((Intent.timeframe { timeframe := some "bogus", requires_live_data := some false }).map (validTimeframes.contains ·)).getD false = false →
      (normalizeIntent { timeframe := some "bogus", requires_live_data := some false } none).timeframe = some "3days") ∧
    ((normalizeIntent { timeframe := some "bogus", requires_live_data := some true } none).timeframe = some "24hours" ∧
      (normalizeIntent { timeframe := some "bogus", requires_live_data := some false } none).timeframe = some "3days") :=
  ⟨(C4_intent_normalization { timeframe := some "bogus", requires_live_data := some true } none).1,
   (C4_intent_normalization { timeframe := some "bogus", requires_live_data := some false } none).2.1,
   (C4_intent_normalization { timeframe := some "bogus", requires_live_data := some true } none).1 (by decide),
   (C4_intent_normalization { timeframe := some "bogus", requires_live_data := some false } none).2.1 (by decide) (by decide)⟩

/-! ## `PerplexityNewsFetcher._buildSearchQuery`
(src/unnamed/part_003:690-751; the first revision at lines 186-247 is
textually identical) -/

/-- The intent object handed to the fetcher (built by
`CronService.processAlert` from the cached `AlertIntent`). -/
structure SearchIntent where
  perplexity_query : Option String := none
  topic : Option String := none
  category : Option String := none
  subcategory : Option (List String) := none
  followup_questions : Option (List FollowupQ) := none
  custom_question : Option String := none
  timeframe : Option String := none
  intent_summary : Option String := none
deriving Repr, DecidableEq

/-- One follow-up rendered for the synthesized sentence:
`Q:… | Options:a/b | Selected:…` for object entries, the string itself
for string entries. -/
def fqPart : FollowupQ → String
  | .obj q opts sel =>
    String.intercalate " | "
      ((if q.getD "" ≠ "" then ["Q:" ++ q.getD ""] else []) ++
        (if opts.getD [] ≠ [] then
          ["Options:" ++ String.intercalate "/" (opts.getD [])] else []) ++
        (if sel.getD "" ≠ "" then ["Selected:" ++ sel.getD ""] else []))
  | .str s => s

/-- The clean synthesized sentence rebuilt from
category/sub/followups/custom with the recency qualifier mapped from
the timeframe (anything other than the three named buckets defaults to
"last 72 hours"). -/
def synthSentence (sq : SearchIntent) : String :=
  let category := firstTruthy [sq.category, sq.topic] "news"
  let sub :=
    match sq.subcategory with
    | some l =>
      if l ≠ [] then String.intercalate ", " (l.filter (· ≠ "")) else ""
    | none => ""
  let followups :=
    match sq.followup_questions with
    | some l => String.intercalate "; " ((l.map fqPart).filter (· ≠ ""))
    | none => ""
  let customQ := sq.custom_question.getD ""
  let timeframe :=
    if sq.timeframe = some "1week" then "last 7 days"
    else if sq.timeframe = some "1month" then "last 30 days"
    else if sq.timeframe = some "24hours" then "last 24 hours"
    else "last 72 hours"
  "Find latest " ++ category ++
    (if sub ≠ "" then " about " ++ sub else "") ++
    (if followups ≠ "" then ", considering: " ++ followups else "") ++
    (if customQ ≠ "" then ", and also: " ++ customQ else "") ++
    ", strictly in the " ++ timeframe ++ "."

/-- `summaryClean`: the trimmed cached summary when truthy and free of
the `[object Object]` serialization artifact, else empty. -/
def summaryCleanOf (sq : SearchIntent) : String :=
  let summary := jsTrim (sq.intent_summary.getD "")
  if summary ≠ "" ∧ jsIncludes summary "[object Object]" = false then summary else ""

/-- `perplexityClean`: the trimmed stored query when it is a string,
truthy and artifact-free, else empty. -/
def perplexityCleanOf (sq : SearchIntent) : String :=
  let q := (sq.perplexity_query.map jsTrim).getD ""
  if q ≠ "" ∧ jsIncludes q "[object Object]" = false then q else ""

/-- `_buildSearchQuery(intent)`: prefer the clean intent summary *with
the synthesized sentence appended*, else the clean stored query, else
the synthesized sentence. -/
def buildSearchQuery (sq : SearchIntent) : String :=
  if summaryCleanOf sq ≠ "" then summaryCleanOf sq ++ ". " ++ synthSentence sq
  else if perplexityCleanOf sq ≠ "" then perplexityCleanOf sq
  else synthSentence sq

/-- C8, counterexample to the claim as stated: with a clean cached
summary the search sentence is *not* the intent summary — the code
appends the synthesized structured sentence to it. -/
theorem C8_counterexample_summary_not_alone :
    buildSearchQuery { intent_summary := some "Cricket updates" } ≠
        "Cricket updates" ∧
      buildSearchQuery { intent_summary := some "Cricket updates" } =
        "Cricket updates. Find latest news, strictly in the last 72 hours." := by
  constructor
  · decide
  · decide

/-- C8 (amended): with a clean cached summary the search sentence is the
summary followed by the synthesized sentence (appended for recall);
otherwise a clean stored `perplexity_query` is used verbatim; otherwise
the synthesized sentence alone, which always carries an explicit recency
qualifier derived from the timeframe. -/
theorem C8_search_sentence_construction (sq : SearchIntent) :
    (∀ s, sq.intent_summary = some s → jsTrim s ≠ "" →
      jsIncludes (jsTrim s) "[object Object]" = false →
      buildSearchQuery sq = jsTrim s ++ ". " ++ synthSentence sq) ∧
    (summaryCleanOf sq = "" → ∀ q, sq.perplexity_query = some q → jsTrim q ≠ "" →
      jsIncludes (jsTrim q) "[object Object]" = false →
      buildSearchQuery sq = jsTrim q) ∧
    (summaryCleanOf sq = "" → perplexityCleanOf sq = "" →
      buildSearchQuery sq = synthSentence sq) ∧
    (∃ tf, tf ∈ ["last 24 hours", "last 72 hours", "last 7 days", "last 30 days"] ∧
      ∃ pre, synthSentence sq = pre ++ ", strictly in the " ++ tf ++ ".") := by
  refine ⟨?_, ?_, ?_, ?_⟩
  · intro s hs ht hn
    have hsum : summaryCleanOf sq = jsTrim s := by
      unfold summaryCleanOf
      rw [hs]
      dsimp only [Option.getD_some]
      rw [if_pos ⟨ht, hn⟩]
    unfold buildSearchQuery
    rw [hsum, if_pos ht]
  · intro hsum q hq ht hn
    have hq' : perplexityCleanOf sq = jsTrim q := by
      unfold perplexityCleanOf
      rw [hq]
      dsimp only [Option.map_some', Option.getD_some]
      rw [if_pos ⟨ht, hn⟩]
    unfold buildSearchQuery
    rw [hsum, hq']
    simp only [ne_eq, not_true_eq_false, if_false]
    rw [if_pos ht]
  · intro hsum hq
    unfold buildSearchQuery
    rw [hsum, hq]
    simp
  · unfold synthSentence
    dsimp only
    by_cases h1 : sq.timeframe = some "1week"
    · rw [if_pos h1]
      exact ⟨"last 7 days", by decide, _, rfl⟩
    · rw [if_neg h1]
      by_cases h2 : sq.timeframe = some "1month"
      · rw [if_pos h2]
        exact ⟨"last 30 days", by decide, _, rfl⟩
      · rw [if_neg h2]
        by_cases h3 : sq.timeframe = some "24hours"
        · rw [if_pos h3]
          exact ⟨"last 24 hours", by decide, _, rfl⟩
        · rw [if_neg h3]
          exact ⟨"last 72 hours", by decide, _, rfl⟩

/-- Witness for C8 (amended) on a concrete intent with a clean summary. -/
theorem C8_search_sentence_construction_witness :
    buildSearchQuery { intent_summary := some "Cricket updates", timeframe := some "24hours" } =
      jsTrim "Cricket updates" ++ ". " ++
        synthSentence { intent_summary := some "Cricket updates", timeframe := some "24hours" } :=
  (C8_search_sentence_construction _).1 "Cricket updates" rfl (by decide) (by decide)

/-! ## `CronService.processAllAlerts`
(src/services/llmIntentParser.js:941-1032, third document in the file:
the CronService class) -/

/-- Scheduler state: the re-entrancy flag and the last-run timestamp
(epoch milliseconds of the `Date` values the code assigns). -/
structure CronState where
  isRunning : Bool
  lastRun : Option Nat
deriving Repr, DecidableEq

/-- The status field of one `processAlert` result (that method catches
all its own errors and always returns one of these). -/
inductive AlertStatus
  | success
  | skipped
  | error
deriving Repr, DecidableEq

/-- Outcome of `Alert.find({is_active: true})` together with the
statuses the per-alert processing then produces: either the query throws
(the only point inside the `try` that can raise, since `processAlert`
never throws) or it returns the active alerts, abstracted to the status
each one's processing yields. -/
inductive LoadOutcome
  | fatal
  | ok (alerts : List AlertStatus)
deriving Repr, DecidableEq

/-- The run-level result value: the guard returns `undefined` (`none`
at the call site), a fatal error returns `{success:false}`, otherwise
counts of processed/skipped/errored alerts. -/
inductive RunOutcome
  | fatalError
  | counts (processed skipped errors : Nat)
deriving Repr, DecidableEq

/-- Observables of one `processAllAlerts` call used by the temporal
claims: whether the active alerts were loaded and how many
`processAlert` calls were made. -/
structure RunTrace where
  loadedAlerts : Bool
  processAlertCalls : Nat
deriving Repr, DecidableEq

/-- Count the alerts with a given status. -/
def countStatus (alerts : List AlertStatus) (st : AlertStatus) : Nat :=
  (alerts.filter (· = st)).length

/-- `processAllAlerts()`: re-entrancy guard, load active alerts, process
them sequentially, maintain `isRunning`/`lastRun` on every exit path.
`endTime` stands for the `new Date()` taken at the exit point. -/
def processAllAlerts (st : CronState) (endTime : Nat) (load : LoadOutcome) :
    CronState × Option RunOutcome × RunTrace :=
  if st.isRunning then
    (st, none, { loadedAlerts := false, processAlertCalls := 0 })
  else
    match load with
    | .fatal =>
      ({ isRunning := false, lastRun := some endTime }, some .fatalError,
        { loadedAlerts := true, processAlertCalls := 0 })
    | .ok [] =>
      ({ isRunning := false, lastRun := some endTime }, some (.counts 0 0 0),
        { loadedAlerts := true, processAlertCalls := 0 })
    | .ok alerts =>
      ({ isRunning := false, lastRun := some endTime },
        some (.counts (countStatus alerts .success) (countStatus alerts .skipped)
          (countStatus alerts .error)),
        { loadedAlerts := true, processAlertCalls := alerts.length })

/-- C2: calling `processAllAlerts` while `isRunning` is true is a no-op:
the state is unchanged, the call returns immediately (`undefined`), no
alerts are loaded and no alert is processed, for every load outcome —
so a second concurrent pass can never start. -/
theorem C2_scheduler_reentrancy_guard (st : CronState) (endTime : Nat)
    (load : LoadOutcome) (h : st.isRunning = true) :
    processAllAlerts st endTime load =
      (st, none, { loadedAlerts := false, processAlertCalls := 0 }) := by
  unfold processAllAlerts
  rw [h]
  rfl

/-- Witness for C2 on a concrete running state. -/
theorem C2_scheduler_reentrancy_guard_witness :
    processAllAlerts { isRunning := true, lastRun := some 1000 } 2000
        (.ok [.success, .skipped]) =
      ({ isRunning := true, lastRun := some 1000 }, none,
        { loadedAlerts := false, processAlertCalls := 0 }) :=
  C2_scheduler_reentrancy_guard _ _ _ rfl

/-- C10: every invocation that passes the guard leaves the scheduler
with `isRunning = false` and a fresh `lastRun` timestamp, on all three
exit paths (no active alerts, normal completion, fatal error) — a single
run can never leave the scheduler stuck in the running state. -/
theorem C10_scheduler_run_state_reset (st : CronState) (endTime : Nat)
    (load : LoadOutcome) (h : st.isRunning = false) :
    (processAllAlerts st endTime load).1.isRunning = false ∧
      (processAllAlerts st endTime load).1.lastRun = some endTime := by
  unfold processAllAlerts
  rw [h]
  cases load with
  | fatal => exact ⟨rfl, rfl⟩
  | ok alerts => cases alerts <;> exact ⟨rfl, rfl⟩

/-- Witness for C10 on all three exit paths from a concrete idle state. -/
theorem C10_scheduler_run_state_reset_witness :
    ((processAllAlerts { isRunning := false, lastRun := none } 5 .fatal).1.isRunning = false ∧
      (processAllAlerts { isRunning := false, lastRun := none } 5 .fatal).1.lastRun = some 5) ∧
    ((processAllAlerts { isRunning := false, lastRun := none } 6 (.ok [])).1.isRunning = false ∧
      (processAllAlerts { isRunning := false, lastRun := none } 6 (.ok [])).1.lastRun = some 6) ∧
    ((processAllAlerts { isRunning := false, lastRun := none } 7
        (.ok [.success, .error])).1.isRunning = false ∧
      (processAllAlerts { isRunning := false, lastRun := none } 7
        (.ok [.success, .error])).1.lastRun = some 7) :=
  ⟨C10_scheduler_run_state_reset _ _ _ rfl,
   C10_scheduler_run_state_reset _ _ _ rfl,
   C10_scheduler_run_state_reset _ _ _ rfl⟩

/-! ## `WatiNotificationService.isSimilarByGemini`
(src/unnamed/part_005:164-286) -/

/-- Outcome of the semantic-similarity check's collaborator
interaction.

* `noModel`   — Gemini was not initialized (`this.geminiModel` null).
* `dbError`   — fetching recent messages threw (caught by the outer
  `catch`).
* `noRecent`  — no recent successful messages in the lookback window.
* `genError`  — the generate call threw (caught by the outer `catch`).
* `parseFail` — the response was not valid JSON.
* `parsed isSim conf` — valid JSON; `isSim` is `some b` when
  `is_similar` is the boolean `b` (and `none` when absent or not a
  boolean, so `=== true` fails); `conf` is the numeric `confidence`
  when present (an absent confidence never satisfies `>= 0.7`). -/
inductive SimilarityOutcome
  | noModel
  | dbError
  | noRecent
  | genError
  | parseFail
  | parsed (isSimilar : Option Bool) (confidence : Option ℚ)
deriving Repr, DecidableEq

/-- The confidence threshold of the similarity check. -/
def similarityThreshold : ℚ := 7 / 10

/-- `isSimilarByGemini(...)`: `true` only on a parsed judgment with
`is_similar === true` and `confidence >= 0.7`; every failure path
returns `false`. -/
def isSimilarByGemini : SimilarityOutcome → Bool
  | .noModel => false
  | .dbError => false
  | .noRecent => false
  | .genError => false
  | .parseFail => false
  | .parsed isSim conf =>
    (isSim == some true) &&
      (match conf with
       | some c => decide (similarityThreshold ≤ c)
       | none => false)

/-! ## `WatiNotificationService.sendNewsNotification` and the
`WatiDispatch` store (src/unnamed/part_005:296-638,
src/models/WatiDispatch.js) -/

/-- A Mongoose index declaration of a schema. -/
structure MongoIndex where
  fields : List String
  unique : Bool
deriving Repr, DecidableEq

/-- The compound indexes declared on `watiDispatchSchema`
(src/models/WatiDispatch.js:69 and 72): neither carries
`{unique: true}` — the store enforces no uniqueness on
`(user_id, template_name, content_hash)`. -/
def watiDispatchIndexes : List MongoIndex :=
  [{ fields := ["user_id", "template_name", "content_hash"], unique := false },
   { fields := ["user_id", "template_name", "article_hash"], unique := false }]

/-- One document of the `wati_dispatch_collection`. -/
structure DispatchRecord where
  user_id : String
  alert_id : Option String := none
  content_hash : String
  article_hash : Option String := none
  template_name : String
  broadcast_name : String
  title : String := ""
  description : String := ""
  image_url : String := ""
  message_sent : Bool := false
  reason : String := ""
deriving Repr, DecidableEq

/-- `computeContentHash(...)`: the sha-256 digest of
`imageUrl|title|description|templateName|broadcastName`, modelled by
the fingerprint string itself. -/
def computeContentHash (imageUrl title description templateName broadcastName :
    String) : String :=
  imageUrl ++ "|" ++ title ++ "|" ++ description ++ "|" ++ templateName ++ "|" ++
    broadcastName

/-- `isDuplicate({userId, templateName, contentHash})`: does any record
with this key exist? -/
def isDuplicate (st : List DispatchRecord) (userId templateName contentHash :
    String) : Bool :=
  st.any (fun r =>
    r.user_id = userId && r.template_name = templateName &&
      r.content_hash = contentHash)

/-- `isDuplicateByArticle(...)`: false for a falsy hash, else does any
record with this `article_hash` exist for the user and template? -/
def isDuplicateByArticle (st : List DispatchRecord)
    (userId templateName : String) : Option String → Bool
  | none => false
  | some ah =>
    st.any (fun r =>
      r.user_id = userId && r.template_name = templateName &&
        r.article_hash = some ah)

/-- All inputs of one `sendNewsNotification` call: the article payload,
the config/phone resolution, the store's and providers' behaviour. -/
structure SendInput where
  userId : String
  alertId : String
  title : String
  description : String
  imageUrl : String
  articleHash : Option String
  templateName : String
  broadcastName : String
  /-- `this.accessToken && this.baseUrl`. -/
  configOk : Bool
  /-- the recipient's phone was resolved and normalized. -/
  phoneOk : Bool
  /-- the duplicate-check reads succeeded (else the outer `catch`). -/
  dbOk : Bool
  simOutcome : SimilarityOutcome
  /-- the provider POST succeeded. -/
  postOk : Bool
  /-- the `WatiDispatch.create` of a rejection log succeeded (each such
  create is wrapped in its own `try`). -/
  rejectLogOk : Bool
  /-- the `WatiDispatch.create` of the success record succeeded (it is
  not individually wrapped; on failure the outer `catch` runs). -/
  successCreateOk : Bool
  /-- the `WatiDispatch.create` of the error record succeeded. -/
  errorLogOk : Bool
deriving Repr, DecidableEq

/-- Result statuses of `sendNewsNotification`. -/
inductive SendResult
  | skippedMissingConfig
  | skippedPhoneMissing
  | skippedDupMessage
  | skippedDupArticle
  | skippedDupSimilar
  | success
  | error
deriving Repr, DecidableEq

/-- `articleHash = article?.article_hash || null` (an empty string is
falsy). -/
def normalizeArticleHash : Option String → Option String
  | some s => if s = "" then none else some s
  | none => none

/-- A rejection log record (`message_sent: false` with the given
reason, same content hash as the candidate). -/
def mkRejectRecord (inp : SendInput) (contentHash : String)
    (articleHash : Option String) (reason : String) : DispatchRecord :=
  { user_id := inp.userId, alert_id := some inp.alertId,
    content_hash := contentHash, article_hash := articleHash,
    template_name := inp.templateName, broadcast_name := inp.broadcastName,
    title := inp.title, description := inp.description,
    image_url := inp.imageUrl, message_sent := false, reason := reason }

/-- The success record (`message_sent: true, reason: "success"`). -/
def mkSuccessRecord (inp : SendInput) (contentHash : String)
    (articleHash : Option String) : DispatchRecord :=
  { user_id := inp.userId, alert_id := some inp.alertId,
    content_hash := contentHash, article_hash := articleHash,
    template_name := inp.templateName, broadcast_name := inp.broadcastName,
    title := inp.title, description := inp.description,
    image_url := inp.imageUrl, message_sent := true, reason := "success" }

/-- The outer-catch error record: `content_hash` is the empty string and
`message_sent` is false. -/
def mkErrorRecord (inp : SendInput) : DispatchRecord :=
  { user_id := inp.userId, alert_id := some inp.alertId,
    content_hash := "", article_hash := none,
    template_name := inp.templateName, broadcast_name := inp.broadcastName,
    title := inp.title, description := inp.description,
    image_url := inp.imageUrl, message_sent := false, reason := "error" }

/-- `sendNewsNotification(userId, alertId, article, phone)` as a
transition on the dispatch collection: config and phone gates (which
write nothing), the three ordered duplicate checks (each rejection
appends a rejection log), then the provider call and the success or
error record. -/
def sendNewsNotification (st : List DispatchRecord) (inp : SendInput) :
    List DispatchRecord × SendResult :=
  if !inp.configOk then (st, .skippedMissingConfig)
  else if !inp.phoneOk then (st, .skippedPhoneMissing)
  else
    let contentHash := computeContentHash inp.imageUrl inp.title inp.description
      inp.templateName inp.broadcastName
    let articleHash := normalizeArticleHash inp.articleHash
    if !inp.dbOk then
      ((if inp.errorLogOk then st ++ [mkErrorRecord inp] else st), .error)
    else if isDuplicate st inp.userId inp.templateName contentHash then
      ((if inp.rejectLogOk then
          st ++ [mkRejectRecord inp contentHash articleHash "duplicate_message"]
        else st), .skippedDupMessage)
    else if isDuplicateByArticle st inp.userId inp.templateName articleHash then
      ((if inp.rejectLogOk then
          st ++ [mkRejectRecord inp contentHash articleHash "duplicate_article"]
        else st), .skippedDupArticle)
    else if isSimilarByGemini inp.simOutcome then
      ((if inp.rejectLogOk then
          st ++ [mkRejectRecord inp contentHash articleHash "duplicate_similar"]
        else st), .skippedDupSimilar)
    else if inp.postOk then
      if inp.successCreateOk then
        (st ++ [mkSuccessRecord inp contentHash articleHash], .success)
      else
        ((if inp.errorLogOk then st ++ [mkErrorRecord inp] else st), .error)
    else
      ((if inp.errorLogOk then st ++ [mkErrorRecord inp] else st), .error)

/-- A sequence of notification calls starting from the empty
collection. -/
def runSends (inps : List SendInput) : List DispatchRecord :=
  inps.foldl (fun st i => (sendNewsNotification st i).1) []

/-- Number of records with the given (user, template, content-hash)
key. -/
def countKey (st : List DispatchRecord) (u t h : String) : Nat :=
  (st.filter (fun r =>
    r.user_id = u && r.template_name = t && r.content_hash = h)).length

/-- Number of *sent* records with the given key. -/
def countSentKey (st : List DispatchRecord) (u t h : String) : Nat :=
  (st.filter (fun r =>
    r.user_id = u && r.template_name = t && r.content_hash = h &&
      r.message_sent)).length

/-! ### Counting lemmas for the dispatch collection -/

theorem countSentKey_append (st : List DispatchRecord) (r : DispatchRecord)
    (u t h : String) :
    countSentKey (st ++ [r]) u t h =
      countSentKey st u t h +
        (if r.user_id = u ∧ r.template_name = t ∧ r.content_hash = h ∧
            r.message_sent = true then 1 else 0) := by
  unfold countSentKey
  rw [List.filter_append, List.length_append]
  congr 1
  by_cases hc : r.user_id = u ∧ r.template_name = t ∧ r.content_hash = h ∧
      r.message_sent = true
  · obtain ⟨h1, h2, h3, h4⟩ := hc
    rw [if_pos ⟨h1, h2, h3, h4⟩]
    simp [List.filter, h1, h2, h3, h4]
  · rw [if_neg hc]
    have hfalse : (r.user_id = u && r.template_name = t && r.content_hash = h &&
        r.message_sent) = false := by
      by_contra hb
      rw [Bool.not_eq_false] at hb
      simp only [Bool.and_eq_true, decide_eq_true_eq] at hb
      exact hc ⟨hb.1.1.1, hb.1.1.2, hb.1.2, hb.2⟩
    simp [List.filter, hfalse]

theorem countSentKey_zero_of_no_key (st : List DispatchRecord) (u t h : String)
    (hd : isDuplicate st u t h = false) : countSentKey st u t h = 0 := by
  unfold isDuplicate at hd
  unfold countSentKey
  rw [List.length_eq_zero]
  induction st with
  | nil => rfl
  | cons r rest ih =>
    rw [List.any_cons, Bool.or_eq_false_iff] at hd
    obtain ⟨h1, h2⟩ := hd
    rw [List.filter_cons]
    have hfalse : (r.user_id = u && r.template_name = t && r.content_hash = h &&
        r.message_sent) = false := by
      rw [Bool.and_eq_false_iff]
      exact Or.inl h1
    rw [hfalse]
    exact ih h2

/-- One `sendNewsNotification` call preserves "at most one sent record
per (user, template, content-hash) key": rejection and error records are
unsent, and the success record is only created after the pre-insert
existence check found no record with its key. -/
theorem sendNewsNotification_preserves_sent_unique (st : List DispatchRecord)
    (inp : SendInput) (hP : ∀ u t h, countSentKey st u t h ≤ 1)
    (u t h : String) :
    countSentKey (sendNewsNotification st inp).1 u t h ≤ 1 := by
  have hunsent : ∀ (st' : List DispatchRecord) (r : DispatchRecord),
      r.message_sent = false → (∀ u' t' h', countSentKey st' u' t' h' ≤ 1) →
      countSentKey (st' ++ [r]) u t h ≤ 1 := by
    intro st' r hr hP'
    rw [countSentKey_append]
    rw [if_neg (fun hc => by rw [hr] at hc; exact Bool.false_ne_true hc.2.2.2)]
    rw [Nat.add_zero]
    exact hP' u t h
  unfold sendNewsNotification
  dsimp only
  split
  · exact hP u t h
  split
  · exact hP u t h
  split
  · split
    · exact hunsent st (mkErrorRecord inp) rfl hP
    · exact hP u t h
  split
  · split
    · exact hunsent st _ rfl hP
    · exact hP u t h
  split
  · split
    · exact hunsent st _ rfl hP
    · exact hP u t h
  split
  · split
    · exact hunsent st _ rfl hP
    · exact hP u t h
  split
  · split
    · rename_i hc1 hc2 hc3 hnodup hnodupA hnosim hpost hcreate
      rw [countSentKey_append]
      by_cases hkey : inp.userId = u ∧ inp.templateName = t ∧
          computeContentHash inp.imageUrl inp.title inp.description
            inp.templateName inp.broadcastName = h
      · obtain ⟨hk1, hk2, hk3⟩ := hkey
        rw [Bool.not_eq_true] at hnodup
        rw [hk3, hk1, hk2] at hnodup
        rw [countSentKey_zero_of_no_key st u t h hnodup]
        split
        · exact Nat.le_refl 1
        · exact Nat.zero_le 1
      · rw [if_neg (fun hc => hkey ⟨hc.1, hc.2.1, hc.2.2.1⟩)]
        rw [Nat.add_zero]
        exact hP u t h
    · split
      · exact hunsent st (mkErrorRecord inp) rfl hP
      · exact hP u t h
  · split
    · exact hunsent st (mkErrorRecord inp) rfl hP
    · exact hP u t h

theorem runSends_aux_sent_unique (inps : List SendInput) :
    ∀ st : List DispatchRecord, (∀ u t h, countSentKey st u t h ≤ 1) →
      ∀ u t h, countSentKey (inps.foldl
        (fun s i => (sendNewsNotification s i).1) st) u t h ≤ 1 := by
  induction inps with
  | nil => intro st hP u t h; exact hP u t h
  | cons i rest ih =>
    intro st hP u t h
    rw [List.foldl_cons]
    exact ih _ (fun u' t' h' =>
      sendNewsNotification_preserves_sent_unique st i hP u' t' h') u t h

/-- C1, counterexample to the claim as stated: two identical sends leave
*two* `DispatchRecord`s with the same `(user_id, template_name,
content_hash)` — the duplicate rejection is itself logged under the same
content hash — and neither compound index on the schema carries a
uniqueness constraint. -/
theorem C1_counterexample_duplicate_log_same_hash :
    countKey
        (runSends
          [{ userId := "u1", alertId := "a1", title := "T", description := "D",
             imageUrl := "", articleHash := none, templateName := "naarad_news",
             broadcastName := "naarad", configOk := true, phoneOk := true,
             dbOk := true, simOutcome := .noRecent, postOk := true,
             rejectLogOk := true, successCreateOk := true, errorLogOk := true },
           { userId := "u1", alertId := "a1", title := "T", description := "D",
             imageUrl := "", articleHash := none, templateName := "naarad_news",
             broadcastName := "naarad", configOk := true, phoneOk := true,
             dbOk := true, simOutcome := .noRecent, postOk := true,
             rejectLogOk := true, successCreateOk := true, errorLogOk := true }])
        "u1" "naarad_news"
        (computeContentHash "" "T" "D" "naarad_news" "naarad") = 2 ∧
      watiDispatchIndexes.all (fun i => !i.unique) = true := by
  constructor
  · decide
  · decide

/-- C1 (amended): over every sequence of `sendNewsNotification` calls
from the empty collection, at most one *sent* record
(`message_sent = true`, created only after the pre-insert existence
check) exists per (user_id, template_name, content_hash); rejection logs
may add further unsent records under the same hash, and the schema's
compound index is not unique. -/
theorem C1_dispatch_sent_unique (inps : List SendInput) (u t h : String) :
    countSentKey (runSends inps) u t h ≤ 1 := by
  unfold runSends
  exact runSends_aux_sent_unique inps [] (fun _ _ _ => Nat.zero_le 1) u t h

/-- C7: the similarity check reports similar exactly when the parsed
judgment has `is_similar = true` with confidence at least 0.7; on every
failure (no model, store error, no recent messages, request error,
unparsable response) it reports not-similar, so a failure of this check
never blocks sending. -/
theorem C7_similarity_fail_open (o : SimilarityOutcome) :
    (isSimilarByGemini o = true ↔
      ∃ c : ℚ, o = .parsed (some true) (some c) ∧ similarityThreshold ≤ c) ∧
    ∀ (st : List DispatchRecord) (inp : SendInput), inp.simOutcome = o →
      isSimilarByGemini o = false →
      (sendNewsNotification st inp).2 ≠ SendResult.skippedDupSimilar := by
  refine ⟨?_, ?_⟩
  constructor
  · intro h
    cases o with
    | noModel => cases h
    | dbError => cases h
    | noRecent => cases h
    | genError => cases h
    | parseFail => cases h
    | parsed isSim conf =>
      unfold isSimilarByGemini at h
      rw [Bool.and_eq_true] at h
      obtain ⟨hsim, hconf⟩ := h
      have hsim' : isSim = some true := by
        cases isSim with
        | none => cases hsim
        | some b => cases b with
          | true => rfl
          | false => cases hsim
      cases conf with
      | none => cases hconf
      | some c =>
        refine ⟨c, ?_, ?_⟩
        · rw [hsim']
        · exact of_decide_eq_true hconf
  · rintro ⟨c, rfl, hc⟩
    unfold isSimilarByGemini
    rw [Bool.and_eq_true]
    exact ⟨rfl, decide_eq_true hc⟩

  · intro st inp hso hsim
    unfold sendNewsNotification
    dsimp only
    split
    · exact fun hx => SendResult.noConfusion hx
    split
    · exact fun hx => SendResult.noConfusion hx
    split
    · exact fun hx => SendResult.noConfusion hx
    split
    · exact fun hx => SendResult.noConfusion hx
    split
    · exact fun hx => SendResult.noConfusion hx
    split
    · rename_i hcond
      rw [hso, hsim] at hcond
      cases hcond
    split
    · split
      · exact fun hx => SendResult.noConfusion hx
      · exact fun hx => SendResult.noConfusion hx
    · exact fun hx => SendResult.noConfusion hx

/-- Witness for C7's notifier conjunct: an unparsable similarity
response never yields a `duplicate_similar` skip. -/
theorem C7_similarity_fail_open_witness :
    (sendNewsNotification []
        { userId := "u2", alertId := "a2", title := "T2", description := "D2",
          imageUrl := "", articleHash := none, templateName := "naarad_news",
          broadcastName := "naarad", configOk := true, phoneOk := true,
          dbOk := true, simOutcome := .parseFail, postOk := true,
          rejectLogOk := true, successCreateOk := true, errorLogOk := true }).2 ≠
      SendResult.skippedDupSimilar :=
  (C7_similarity_fail_open .parseFail).2 [] _ rfl rfl
